import Mathlib

/-!
Shallow embedding of the ECS arcade-shooter core (src/index.js) and proofs
about its systems.

Modelling conventions:
* JavaScript numbers are modelled as rationals (`ℚ`); the arithmetic the
  systems perform is addition/subtraction/comparison only, which is exact.
* A JavaScript object reference is modelled by a numeric identity `id` on
  each entity; `a === b` on entities becomes `a.id = b.id` and whitelist
  membership (`includes`, which compares by reference) becomes membership
  of the id in a list of ids.
* `World.entities` is a `List (Option Entity)`; `none` is a tombstoned
  (nulled) slot.
* In-place mutation of a component found by `getComponent` is modelled by
  replacing the first component of that variant in the entity's component
  list (`setFirst`), which is exactly what mutating the object returned by
  a first-match lookup does.
* `Array.prototype.forEach` visits indices `0 .. length-1` in order,
  reading the element at the index afresh at each visit; loops below
  recurse over `List.range length` and read slots with `getD`.
* Wall-clock timestamps (`Date.now()`) are integer parameters; calls to
  `Math.random()` are parameters of the functions that consume them.
-/

namespace Bullets

/-- Component variants of the ECS, one constructor per JavaScript
`Component` subclass.  `renderable` keeps only whether a sprite is present
(the sprite itself is render-side data); `interactable` omits its stored
closure, which is host-side behaviour no system modelled here invokes. -/
inductive Component where
  | position (x y : ℚ)
  | velocity (x y : ℚ)
  | renderable (hasSprite : Bool)
  | rectangle (width height : ℚ)
  | interactable
  | blaster (lastFired : Int)
  | whitelist (ids : List Nat)
  | boundary (x y width height : ℚ)
  | removableAtBoundary
  | spawn (lastSpawn : Int)
  | counter (count : Int)
  | userCharacter
  deriving DecidableEq, Repr

/-- Variant test used by `getComponent(PositionComponent)`. -/
def isPosition : Component → Bool
  | .position _ _ => true
  | _ => false

/-- Variant test used by `getComponent(VelocityComponent)`. -/
def isVelocity : Component → Bool
  | .velocity _ _ => true
  | _ => false

/-- Variant test used by `getComponent(RectangleComponent)`. -/
def isRectangle : Component → Bool
  | .rectangle _ _ => true
  | _ => false

/-- Variant test used by `getComponent(BoundaryComponent)`. -/
def isBoundary : Component → Bool
  | .boundary _ _ _ _ => true
  | _ => false

/-- Variant test used by `getComponent(WhitelistComponent)`. -/
def isWhitelist : Component → Bool
  | .whitelist _ => true
  | _ => false

/-- Variant test used by `getComponent(RemovableAtBoundaryComponent)`. -/
def isRemovable : Component → Bool
  | .removableAtBoundary => true
  | _ => false

/-- Variant test used by `getComponent(SpawnComponent)`. -/
def isSpawn : Component → Bool
  | .spawn _ => true
  | _ => false

/-- Variant test used by `getComponent(CounterComponent)`. -/
def isCounter : Component → Bool
  | .counter _ => true
  | _ => false

/-- An entity: an ordered bag of components, plus an `id` standing for the
JavaScript object's reference identity. -/
structure Entity where
  id : Nat
  components : List Component
  deriving DecidableEq, Repr

/-- Replaces the first element satisfying `p` by `c`; no-op when none
does.  This models in-place mutation of the object `find` returned. -/
def setFirst (p : Component → Bool) (c : Component) : List Component → List Component
  | [] => []
  | x :: xs => if p x then c :: xs else x :: setFirst p c xs

/-- Model of `entity.getComponent(PositionComponent)`, projected to the
component's fields. -/
def Entity.getPosition (e : Entity) : Option (ℚ × ℚ) :=
  match e.components.find? isPosition with
  | some (.position x y) => some (x, y)
  | _ => none

/-- Model of `entity.getComponent(VelocityComponent)`. -/
def Entity.getVelocity (e : Entity) : Option (ℚ × ℚ) :=
  match e.components.find? isVelocity with
  | some (.velocity x y) => some (x, y)
  | _ => none

/-- Model of `entity.getComponent(RectangleComponent)`. -/
def Entity.getRectangle (e : Entity) : Option (ℚ × ℚ) :=
  match e.components.find? isRectangle with
  | some (.rectangle w h) => some (w, h)
  | _ => none

/-- Model of `entity.getComponent(BoundaryComponent)`, as
`(x, y, width, height)`. -/
def Entity.getBoundary (e : Entity) : Option (ℚ × ℚ × ℚ × ℚ) :=
  match e.components.find? isBoundary with
  | some (.boundary x y w h) => some (x, y, w, h)
  | _ => none

/-- Model of `entity.getComponent(WhitelistComponent)`: the list of ids of
the referenced entities. -/
def Entity.getWhitelist (e : Entity) : Option (List Nat) :=
  match e.components.find? isWhitelist with
  | some (.whitelist ids) => some ids
  | _ => none

/-- Model of `entity.getComponent(RemovableAtBoundaryComponent)` coerced
to the truthiness the source tests. -/
def Entity.getRemovable (e : Entity) : Bool :=
  (e.components.find? isRemovable).isSome

/-- Model of `entity.getComponent(SpawnComponent)`, projected to
`lastSpawn`. -/
def Entity.getSpawn (e : Entity) : Option Int :=
  match e.components.find? isSpawn with
  | some (.spawn t) => some t
  | _ => none

/-- Model of `entity.getComponent(CounterComponent)`, projected to
`count`. -/
def Entity.getCounter (e : Entity) : Option Int :=
  match e.components.find? isCounter with
  | some (.counter n) => some n
  | _ => none

/-- Mutation `position.x = ...; position.y = ...` of the first Position
component. -/
def Entity.setPosition (e : Entity) (x y : ℚ) : Entity :=
  { e with components := setFirst isPosition (.position x y) e.components }

/-- Mutation of the first Velocity component. -/
def Entity.setVelocity (e : Entity) (x y : ℚ) : Entity :=
  { e with components := setFirst isVelocity (.velocity x y) e.components }

/-- Mutation `spawn.lastSpawn = now` of the first Spawn component. -/
def Entity.setSpawn (e : Entity) (t : Int) : Entity :=
  { e with components := setFirst isSpawn (.spawn t) e.components }

/-- Mutation `counter.count = n` of the first Counter component. -/
def Entity.setCounter (e : Entity) (n : Int) : Entity :=
  { e with components := setFirst isCounter (.counter n) e.components }

/-- Model of `World.addEntity`: write into the first null slot, else
append (src/index.js lines 20-28). -/
def addEntity (entities : List (Option Entity)) (e : Entity) : List (Option Entity) :=
  match entities with
  | [] => [some e]
  | none :: rest => some e :: rest
  | some x :: rest => some x :: addEntity rest e

/-- Number of live (non-null) slots, as counted by
`EntitiesCounterSystem`. -/
def liveCount (entities : List (Option Entity)) : Nat :=
  entities.countP Option.isSome

/-- One entity's step of `MovementSystem.update`: `position += velocity`
when both components are present, otherwise skip (src/index.js lines
327-343). -/
def movementUpdateEntity (e : Entity) : Entity :=
  match e.getPosition, e.getVelocity with
  | some (px, py), some (vx, vy) => e.setPosition (px + vx) (py + vy)
  | _, _ => e

/-- Model of `MovementSystem.update` over the slot sequence; it never
writes slots, only mutates entities in place. -/
def movementUpdate (entities : List (Option Entity)) : List (Option Entity) :=
  entities.map (Option.map movementUpdateEntity)

/-- One entity's step of `BoundarySystem.update` (src/index.js lines
345-377): four sequential checks — left, top, right, bottom — each
mutating position (left/top snap to the literal 0) and zeroing the
velocity on that axis; the right/bottom checks read the position the
left/top checks may already have written. -/
def boundaryUpdateEntity (e : Entity) : Entity :=
  match e.getPosition, e.getRectangle, e.getBoundary, e.getVelocity with
  | some (px, py), some (w, h), some (bx, bY, bw, bh), some (vx, vy) =>
    let p1x : ℚ × ℚ := if px < bx then (0, 0) else (px, vx)
    let p1y : ℚ × ℚ := if py < bY then (0, 0) else (py, vy)
    let p2x : ℚ × ℚ := if p1x.1 + w > bx + bw then (bx + bw - w, 0) else p1x
    let p2y : ℚ × ℚ := if p1y.1 + h > bY + bh then (bY + bh - h, 0) else p1y
    (e.setPosition p2x.1 p2y.1).setVelocity p2x.2 p2y.2
  | _, _, _, _ => e

/-- Model of `BoundarySystem.update` over the slot sequence. -/
def boundaryUpdate (entities : List (Option Entity)) : List (Option Entity) :=
  entities.map (Option.map boundaryUpdateEntity)

/-- The axis-aligned overlap test of `CollisionSystem.update`
(src/index.js lines 411-416), subject fields first. -/
def overlaps (px py w h opx opy ow oh : ℚ) : Bool :=
  decide (px < opx + ow) && decide (px + w > opx) &&
  decide (py < opy + oh) && decide (py + h > opy)

/-- One iteration of the inner `forEach` of `CollisionSystem.update`
(src/index.js lines 391-423): read slot `i` afresh; skip null, the
subject itself, whitelisted pairs (either direction) and entities lacking
Position or Rectangle; on overlap null out slots `i` and `j`.  The
subject is the value the outer loop captured — its fields `px py w h`
were read once in the outer iteration — so it is compared even if slot
`j` has been nulled since. -/
def collisionInnerStep (subject : Entity) (px py w h : ℚ) (j i : Nat)
    (entities : List (Option Entity)) : List (Option Entity) :=
  match entities.getD i none with
  | none => entities
  | some other =>
    if subject.id = other.id then entities
    else if (subject.getWhitelist.getD []).contains other.id then entities
    else if (other.getWhitelist.getD []).contains subject.id then entities
    else
      match other.getPosition, other.getRectangle with
      | some (opx, opy), some (ow, oh) =>
        if overlaps px py w h opx opy ow oh
        then (entities.set i none).set j none
        else entities
      | _, _ => entities

/-- The inner `forEach` of `CollisionSystem.update` over the index list
`idxs` (in the source: `0 .. length-1`). -/
def collisionInnerLoop (subject : Entity) (px py w h : ℚ) (j : Nat)
    (entities : List (Option Entity)) : List Nat → List (Option Entity)
  | [] => entities
  | i :: rest =>
    collisionInnerLoop subject px py w h j
      (collisionInnerStep subject px py w h j i entities) rest

/-- One iteration of the outer `forEach` of `CollisionSystem.update`:
read slot `j` afresh; skip null slots and entities lacking Position or
Rectangle; otherwise run the inner scan over all indices with the
captured subject. -/
def collisionOuterStep (n : Nat) (entities : List (Option Entity)) (j : Nat) :
    List (Option Entity) :=
  match entities.getD j none with
  | none => entities
  | some subject =>
    match subject.getPosition, subject.getRectangle with
    | some (px, py), some (w, h) =>
      collisionInnerLoop subject px py w h j entities (List.range n)
    | _, _ => entities

/-- The outer `forEach` of `CollisionSystem.update` over `idxs`. -/
def collisionOuterLoop (n : Nat) (entities : List (Option Entity)) :
    List Nat → List (Option Entity)
  | [] => entities
  | j :: rest => collisionOuterLoop n (collisionOuterStep n entities j) rest

/-- Model of `CollisionSystem.update` (src/index.js lines 379-426): a
nested index scan over the live slot array; `forEach` fixes the index
range at entry and collision only nulls slots, so both ranges are the
initial length. -/
def collisionUpdate (entities : List (Option Entity)) : List (Option Entity) :=
  collisionOuterLoop entities.length entities (List.range entities.length)

/-- The removal condition of `BoundaryRemovalSystem.update` (src/index.js
lines 441-446), evaluated with JavaScript's left-to-right short-circuit
semantics.  The source guards only `position` and `removable`, so when
the condition's evaluation touches a missing Boundary (first disjunct) or
a missing Rectangle (second disjunct, reached only when the first is
false) it throws a TypeError, modelled as `Except.error`. -/
def boundaryRemovalCondition (e : Entity) : Except String Bool :=
  match e.getPosition with
  | none => .error "unreachable: position was guarded"
  | some (px, py) =>
    match e.getBoundary with
    | none => .error "TypeError: boundary is undefined"
    | some (bx, bY, bw, bh) =>
      if py < bY then .ok true
      else
        match e.getRectangle with
        | none => .error "TypeError: rectangle is undefined"
        | some (w, h) =>
          if py + h > bY + bh then .ok true
          else if px < bx then .ok true
          else if px + w > bx + bw then .ok true
          else .ok false

/-- One iteration of `BoundaryRemovalSystem.update` (src/index.js lines
428-451) at slot `i`: skip null slots and entities lacking Position or
the RemovableAtBoundary marker; otherwise evaluate the removal condition
and null the slot when it holds. -/
def boundaryRemovalStep (entities : List (Option Entity)) (i : Nat) :
    Except String (List (Option Entity)) :=
  match entities.getD i none with
  | none => .ok entities
  | some e =>
    if e.getPosition.isNone || !e.getRemovable then .ok entities
    else
      match boundaryRemovalCondition e with
      | .error msg => .error msg
      | .ok true => .ok (entities.set i none)
      | .ok false => .ok entities

/-- The `forEach` of `BoundaryRemovalSystem.update`; a thrown TypeError
aborts the whole pass. -/
def boundaryRemovalLoop (entities : List (Option Entity)) :
    List Nat → Except String (List (Option Entity))
  | [] => .ok entities
  | i :: rest =>
    match boundaryRemovalStep entities i with
    | .error msg => .error msg
    | .ok es => boundaryRemovalLoop es rest

/-- Model of `BoundaryRemovalSystem.update` over the slot sequence. -/
def boundaryRemovalUpdate (entities : List (Option Entity)) :
    Except String (List (Option Entity)) :=
  boundaryRemovalLoop entities (List.range entities.length)

/-- Model of `ShipAssemblage` (src/index.js lines 161-170): the common
ship entity with default components, tagged with a fresh object id. -/
def shipAssemblage (id : Nat) : Entity :=
  { id := id
    components :=
      [.position 0 0, .velocity 0 0, .renderable false, .rectangle 32 16,
       .blaster 0, .whitelist []] }

/-- Model of `EnemyShipAssemblage(x, y)` (src/index.js lines 296-311).
`r` stands for the `Math.random()` sample scaled into the drift magnitude
`r * 0.5`, and `neg` for the outcome of the second `Math.random() < 0.5`
draw; `cw`/`ch` are the canvas dimensions the enemy boundary is built
from. -/
def enemyShipAssemblage (id : Nat) (cw ch x y r : ℚ) (neg : Bool) : Entity :=
  let e := shipAssemblage id
  let e := e.setPosition x y
  let xVelocity := r * (1 / 2)
  let e := e.setVelocity (if neg then -xVelocity else xVelocity) 1
  { e with
    components :=
      e.components ++ [.boundary (-100) (-100) (cw + 200) (ch + 200),
                       .removableAtBoundary] }

/-- Predicate of `entities.find((entity) => entity?.getComponent(SpawnComponent))`. -/
def hasSpawn : Option Entity → Bool
  | some e => e.getSpawn.isSome
  | none => false

/-- Model of `SpawnSystem.update` (src/index.js lines 524-555).  `now` is
`Date.now()`; `rPos` and `rVel` the two `Math.random()` samples
(horizontal spawn fraction and drift magnitude), `neg` the drift-sign
draw, `newId` the fresh enemy object's identity, `cw`/`ch` the canvas
dimensions.  The source's `find` returns the spawner object and mutates
through the reference; here its slot index is located and rewritten.  The
final insertion loop is textually `World.addEntity`'s scan, so
`addEntity` is reused. -/
def spawnUpdate (now : Int) (cw ch rPos rVel : ℚ) (neg : Bool) (newId : Nat)
    (entities : List (Option Entity)) : List (Option Entity) :=
  match entities.findIdx? hasSpawn with
  | none => entities
  | some k =>
    match entities.getD k none with
    | none => entities
    | some spawner =>
      match spawner.getSpawn, spawner.getCounter with
      | some lastSpawn, some count =>
        if now - lastSpawn < 100 then entities
        else
          let spawner' := (spawner.setSpawn now).setCounter (count + 1)
          let entities' := entities.set k (some spawner')
          if (count + 1) % 10 = 0 then
            addEntity entities' (enemyShipAssemblage newId cw ch (rPos * cw) 0 rVel neg)
          else entities'
      | _, _ => entities

/-! Helper lemmas: slot reads after writes, and component lookups after
the in-place mutations modelled by `setFirst`. -/

theorem getD_set_ne (l : List (Option Entity)) (i j : Nat) (a : Option Entity)
    (h : i ≠ j) : (l.set i a).getD j none = l.getD j none := by
  simp [List.getD_eq_getElem?_getD, List.getElem?_set_ne h]

theorem getD_set_none_self (l : List (Option Entity)) (i : Nat) :
    (l.set i none).getD i none = none := by
  by_cases h : i < l.length
  · simp [List.getD_eq_getElem?_getD, List.getElem?_set_self, h]
  · rw [List.set_eq_of_length_le (le_of_not_lt h)]
    simp [List.getD_eq_getElem?_getD, List.getElem?_eq_none (le_of_not_lt h)]

theorem getD_set_none (l : List (Option Entity)) (i m : Nat)
    (h : l.getD m none = none ∨ m = i) : (l.set i none).getD m none = none := by
  rcases eq_or_ne m i with rfl | hne
  · exact getD_set_none_self l m
  · rcases h with h | rfl
    · rw [getD_set_ne l i m none (Ne.symm hne)]; exact h
    · exact absurd rfl hne

theorem find?_setFirst_disjoint (p q : Component → Bool) (c : Component)
    (l : List Component) (hc : q c = false)
    (hdisj : ∀ x, p x = true → q x = false) :
    (setFirst p c l).find? q = l.find? q := by
  induction l with
  | nil => rfl
  | cons x xs ih =>
    by_cases hp : p x
    · simp only [setFirst, if_pos hp]
      rw [List.find?_cons_of_neg _ (by simp [hc]),
        List.find?_cons_of_neg _ (by simp [hdisj x hp])]
    · simp only [setFirst, if_neg hp, List.find?_cons]
      cases hqx : q x
      · simpa using ih
      · rfl

theorem find?_setFirst_self (p : Component → Bool) (c : Component)
    (l : List Component) (hc : p c = true) (hl : (l.find? p).isSome) :
    (setFirst p c l).find? p = some c := by
  induction l with
  | nil => simp at hl
  | cons x xs ih =>
    by_cases hp : p x
    · simp only [setFirst, if_pos hp]
      rw [List.find?_cons_of_pos _ hc]
    · simp only [setFirst, if_neg hp]
      rw [List.find?_cons_of_neg _ (by simp [hp])]
      rw [List.find?_cons_of_neg _ (by simp [hp])] at hl
      exact ih hl

theorem getPosition_isSome_find (e : Entity) (p0 : ℚ × ℚ)
    (h : e.getPosition = some p0) : (e.components.find? isPosition).isSome := by
  unfold Entity.getPosition at h
  cases hf : e.components.find? isPosition with
  | none => rw [hf] at h; simp at h
  | some c => simp

theorem getVelocity_isSome_find (e : Entity) (p0 : ℚ × ℚ)
    (h : e.getVelocity = some p0) : (e.components.find? isVelocity).isSome := by
  unfold Entity.getVelocity at h
  cases hf : e.components.find? isVelocity with
  | none => rw [hf] at h; simp at h
  | some c => simp

theorem getSpawn_isSome_find (e : Entity) (t : Int)
    (h : e.getSpawn = some t) : (e.components.find? isSpawn).isSome := by
  unfold Entity.getSpawn at h
  cases hf : e.components.find? isSpawn with
  | none => rw [hf] at h; simp at h
  | some c => simp

theorem getCounter_isSome_find (e : Entity) (n : Int)
    (h : e.getCounter = some n) : (e.components.find? isCounter).isSome := by
  unfold Entity.getCounter at h
  cases hf : e.components.find? isCounter with
  | none => rw [hf] at h; simp at h
  | some c => simp

theorem getPosition_setPosition (e : Entity) (x y : ℚ) (p0 : ℚ × ℚ)
    (h : e.getPosition = some p0) :
    (e.setPosition x y).getPosition = some (x, y) := by
  unfold Entity.getPosition Entity.setPosition
  rw [find?_setFirst_self isPosition (.position x y) e.components rfl
    (getPosition_isSome_find e p0 h)]

theorem getVelocity_setVelocity (e : Entity) (x y : ℚ) (p0 : ℚ × ℚ)
    (h : e.getVelocity = some p0) :
    (e.setVelocity x y).getVelocity = some (x, y) := by
  unfold Entity.getVelocity Entity.setVelocity
  rw [find?_setFirst_self isVelocity (.velocity x y) e.components rfl
    (getVelocity_isSome_find e p0 h)]

theorem getSpawn_setSpawn (e : Entity) (t : Int) (t0 : Int)
    (h : e.getSpawn = some t0) : (e.setSpawn t).getSpawn = some t := by
  unfold Entity.getSpawn Entity.setSpawn
  rw [find?_setFirst_self isSpawn (.spawn t) e.components rfl
    (getSpawn_isSome_find e t0 h)]

theorem getCounter_setCounter (e : Entity) (n : Int) (n0 : Int)
    (h : e.getCounter = some n0) : (e.setCounter n).getCounter = some n := by
  unfold Entity.getCounter Entity.setCounter
  rw [find?_setFirst_self isCounter (.counter n) e.components rfl
    (getCounter_isSome_find e n0 h)]

theorem getVelocity_setPosition (e : Entity) (x y : ℚ) :
    (e.setPosition x y).getVelocity = e.getVelocity := by
  unfold Entity.getVelocity Entity.setPosition
  rw [find?_setFirst_disjoint _ _ _ _ rfl
    (by intro c hc; cases c <;> simp_all [isPosition, isVelocity])]

theorem getPosition_setVelocity (e : Entity) (x y : ℚ) :
    (e.setVelocity x y).getPosition = e.getPosition := by
  unfold Entity.getPosition Entity.setVelocity
  rw [find?_setFirst_disjoint _ _ _ _ rfl
    (by intro c hc; cases c <;> simp_all [isPosition, isVelocity])]

theorem getRectangle_setPosition (e : Entity) (x y : ℚ) :
    (e.setPosition x y).getRectangle = e.getRectangle := by
  unfold Entity.getRectangle Entity.setPosition
  rw [find?_setFirst_disjoint _ _ _ _ rfl
    (by intro c hc; cases c <;> simp_all [isPosition, isRectangle])]

theorem getRectangle_setVelocity (e : Entity) (x y : ℚ) :
    (e.setVelocity x y).getRectangle = e.getRectangle := by
  unfold Entity.getRectangle Entity.setVelocity
  rw [find?_setFirst_disjoint _ _ _ _ rfl
    (by intro c hc; cases c <;> simp_all [isVelocity, isRectangle])]

theorem getBoundary_setPosition (e : Entity) (x y : ℚ) :
    (e.setPosition x y).getBoundary = e.getBoundary := by
  unfold Entity.getBoundary Entity.setPosition
  rw [find?_setFirst_disjoint _ _ _ _ rfl
    (by intro c hc; cases c <;> simp_all [isPosition, isBoundary])]

theorem getBoundary_setVelocity (e : Entity) (x y : ℚ) :
    (e.setVelocity x y).getBoundary = e.getBoundary := by
  unfold Entity.getBoundary Entity.setVelocity
  rw [find?_setFirst_disjoint _ _ _ _ rfl
    (by intro c hc; cases c <;> simp_all [isVelocity, isBoundary])]

theorem getCounter_setSpawn (e : Entity) (t : Int) :
    (e.setSpawn t).getCounter = e.getCounter := by
  unfold Entity.getCounter Entity.setSpawn
  rw [find?_setFirst_disjoint _ _ _ _ rfl
    (by intro c hc; cases c <;> simp_all [isSpawn, isCounter])]

theorem getSpawn_setCounter (e : Entity) (n : Int) :
    (e.setCounter n).getSpawn = e.getSpawn := by
  unfold Entity.getSpawn Entity.setCounter
  rw [find?_setFirst_disjoint _ _ _ _ rfl
    (by intro c hc; cases c <;> simp_all [isCounter, isSpawn])]

theorem lt_length_of_getD_some (l : List (Option Entity)) (i : Nat) (e : Entity)
    (h : l.getD i none = some e) : i < l.length := by
  by_contra hge
  rw [List.getD_eq_default _ _ (le_of_not_lt hge)] at h
  exact Option.noConfusion h

theorem collisionInnerStep_of_none (s : Entity) (px py w h : ℚ) (j i : Nat)
    (es : List (Option Entity)) (hslot : es.getD i none = none) :
    collisionInnerStep s px py w h j i es = es := by
  unfold collisionInnerStep
  rw [hslot]

theorem collisionInnerStep_of_same (s : Entity) (px py w h : ℚ) (j i : Nat)
    (es : List (Option Entity)) (o : Entity) (hslot : es.getD i none = some o)
    (hid : s.id = o.id) : collisionInnerStep s px py w h j i es = es := by
  unfold collisionInnerStep
  rw [hslot]
  simp [hid]

theorem collisionInnerStep_of_wl_subject (s : Entity) (px py w h : ℚ) (j i : Nat)
    (es : List (Option Entity)) (o : Entity) (hslot : es.getD i none = some o)
    (hwl : (s.getWhitelist.getD []).contains o.id = true) :
    collisionInnerStep s px py w h j i es = es := by
  unfold collisionInnerStep
  rw [hslot]
  dsimp only
  by_cases hid : s.id = o.id
  · rw [if_pos hid]
  · rw [if_neg hid, if_pos hwl]

theorem collisionInnerStep_of_wl_other (s : Entity) (px py w h : ℚ) (j i : Nat)
    (es : List (Option Entity)) (o : Entity) (hslot : es.getD i none = some o)
    (hwl : (o.getWhitelist.getD []).contains s.id = true) :
    collisionInnerStep s px py w h j i es = es := by
  unfold collisionInnerStep
  rw [hslot]
  dsimp only
  by_cases hid : s.id = o.id
  · rw [if_pos hid]
  · rw [if_neg hid]
    by_cases hwl1 : (s.getWhitelist.getD []).contains o.id = true
    · rw [if_pos hwl1]
    · rw [if_neg hwl1, if_pos hwl]

theorem collisionInnerStep_of_overlap (s : Entity) (px py w h : ℚ) (j i : Nat)
    (es : List (Option Entity)) (o : Entity) (opx opy ow oh : ℚ)
    (hslot : es.getD i none = some o) (hid : ¬s.id = o.id)
    (hwl1 : (s.getWhitelist.getD []).contains o.id = false)
    (hwl2 : (o.getWhitelist.getD []).contains s.id = false)
    (hop : o.getPosition = some (opx, opy))
    (hor : o.getRectangle = some (ow, oh))
    (hov : overlaps px py w h opx opy ow oh = true) :
    collisionInnerStep s px py w h j i es = (es.set i none).set j none := by
  unfold collisionInnerStep
  rw [hslot]
  simp only [hid, if_false, hwl1, hwl2, Bool.false_eq_true, if_neg, hop, hor,
    if_true, hov]

theorem collisionInnerStep_of_no_overlap (s : Entity) (px py w h : ℚ) (j i : Nat)
    (es : List (Option Entity)) (o : Entity) (opx opy ow oh : ℚ)
    (hslot : es.getD i none = some o) (hid : ¬s.id = o.id)
    (hwl1 : (s.getWhitelist.getD []).contains o.id = false)
    (hwl2 : (o.getWhitelist.getD []).contains s.id = false)
    (hop : o.getPosition = some (opx, opy))
    (hor : o.getRectangle = some (ow, oh))
    (hov : overlaps px py w h opx opy ow oh = false) :
    collisionInnerStep s px py w h j i es = es := by
  unfold collisionInnerStep
  rw [hslot]
  simp only [hid, if_false, hwl1, hwl2, Bool.false_eq_true, if_neg, hop, hor,
    hov]

theorem collisionInnerStep_eq_or (s : Entity) (px py w h : ℚ) (j i : Nat)
    (es : List (Option Entity)) :
    collisionInnerStep s px py w h j i es = es ∨
    collisionInnerStep s px py w h j i es = (es.set i none).set j none := by
  unfold collisionInnerStep
  cases hslot : es.getD i none with
  | none => exact Or.inl rfl
  | some other =>
    dsimp only
    split_ifs
    · exact Or.inl rfl
    · exact Or.inl rfl
    · exact Or.inl rfl
    · cases other.getPosition with
      | none => exact Or.inl rfl
      | some op =>
        cases other.getRectangle with
        | none =>
          cases op with
          | mk opx opy => exact Or.inl rfl
        | some orect =>
          cases op with
          | mk opx opy =>
            cases orect with
            | mk ow oh =>
              dsimp only
              split_ifs
              · exact Or.inr rfl
              · exact Or.inl rfl

theorem collisionInnerStep_preserves_none (s : Entity) (px py w h : ℚ)
    (j i m : Nat) (es : List (Option Entity)) (hm : es.getD m none = none) :
    (collisionInnerStep s px py w h j i es).getD m none = none := by
  rcases collisionInnerStep_eq_or s px py w h j i es with he | he <;> rw [he]
  · exact hm
  · exact getD_set_none _ j m (Or.inl (getD_set_none _ i m (Or.inl hm)))

theorem collisionInnerStep_getD_ne (s : Entity) (px py w h : ℚ) (j i m : Nat)
    (es : List (Option Entity)) (hmi : m ≠ i) (hmj : m ≠ j) :
    (collisionInnerStep s px py w h j i es).getD m none = es.getD m none := by
  rcases collisionInnerStep_eq_or s px py w h j i es with he | he <;> rw [he]
  rw [getD_set_ne _ j m none (Ne.symm hmj), getD_set_ne _ i m none (Ne.symm hmi)]

theorem collisionInnerLoop_preserves_none (s : Entity) (px py w h : ℚ)
    (j m : Nat) (idxs : List Nat) :
    ∀ es : List (Option Entity), es.getD m none = none →
      (collisionInnerLoop s px py w h j es idxs).getD m none = none := by
  induction idxs with
  | nil => intro es hm; exact hm
  | cons i rest ih =>
    intro es hm
    exact ih _ (collisionInnerStep_preserves_none s px py w h j i m es hm)

theorem collisionOuterStep_preserves_none (n j m : Nat)
    (es : List (Option Entity)) (hm : es.getD m none = none) :
    (collisionOuterStep n es j).getD m none = none := by
  unfold collisionOuterStep
  cases es.getD j none with
  | none => exact hm
  | some subject =>
    dsimp only
    cases subject.getPosition with
    | none => exact hm
    | some p =>
      cases subject.getRectangle with
      | none =>
        cases p with
        | mk px py => exact hm
      | some r =>
        cases p with
        | mk px py =>
          cases r with
          | mk w h =>
            exact collisionInnerLoop_preserves_none subject px py w h j m _ es hm

theorem collisionOuterLoop_preserves_none (n m : Nat) (idxs : List Nat) :
    ∀ es : List (Option Entity), es.getD m none = none →
      (collisionOuterLoop n es idxs).getD m none = none := by
  induction idxs with
  | nil => intro es hm; exact hm
  | cons j rest ih =>
    intro es hm
    exact ih _ (collisionOuterStep_preserves_none n j m es hm)

theorem collisionInnerLoop_tombstones (s : Entity) (px py w h : ℚ)
    (j i : Nat) (o : Entity) (opx opy ow oh : ℚ) (idxs : List Nat)
    (hij : i ≠ j) (hid : ¬s.id = o.id)
    (hwl1 : (s.getWhitelist.getD []).contains o.id = false)
    (hwl2 : (o.getWhitelist.getD []).contains s.id = false)
    (hop : o.getPosition = some (opx, opy))
    (hor : o.getRectangle = some (ow, oh))
    (hov : overlaps px py w h opx opy ow oh = true) :
    ∀ es : List (Option Entity), i ∈ idxs → es.getD i none = some o →
      (collisionInnerLoop s px py w h j es idxs).getD i none = none := by
  induction idxs with
  | nil => intro es hmem _; exact absurd hmem (List.not_mem_nil i)
  | cons a rest ih =>
    intro es hmem hslot
    by_cases ha : a = i
    · subst ha
      rw [show collisionInnerLoop s px py w h j es (a :: rest) =
          collisionInnerLoop s px py w h j
            (collisionInnerStep s px py w h j a es) rest from rfl]
      rw [collisionInnerStep_of_overlap s px py w h j a es o opx opy ow oh
        hslot hid hwl1 hwl2 hop hor hov]
      apply collisionInnerLoop_preserves_none
      rw [getD_set_ne _ j a none (Ne.symm hij)]
      exact getD_set_none_self es a
    · rw [show collisionInnerLoop s px py w h j es (a :: rest) =
          collisionInnerLoop s px py w h j
            (collisionInnerStep s px py w h j a es) rest from rfl]
      have hmem' : i ∈ rest := by
        cases List.mem_cons.mp hmem with
        | inl hh => exact absurd hh.symm ha
        | inr hh => exact hh
      apply ih _ hmem'
      rw [collisionInnerStep_getD_ne s px py w h j a i es
        (fun hc => ha hc.symm) hij]
      exact hslot

theorem getD_map (f : Entity → Entity) (l : List (Option Entity)) (i : Nat) :
    (l.map (Option.map f)).getD i none = Option.map f (l.getD i none) := by
  cases h : l[i]? with
  | none =>
    rw [List.getD_eq_getElem?_getD, List.getD_eq_getElem?_getD,
      List.getElem?_map, h]
    rfl
  | some a =>
    rw [List.getD_eq_getElem?_getD, List.getD_eq_getElem?_getD,
      List.getElem?_map, h]
    rfl

/-- Claim C9: `addEntity` writes the new entity into the lowest-indexed
tombstone when one exists (leaving every other slot unchanged, which the
`List.set` equation expresses), and appends at the end when no tombstone
exists; in particular it reuses a tombstone rather than growing the
array. -/
theorem addEntity_first_tombstone (es : List (Option Entity)) (e : Entity) :
    (∀ k, es.findIdx? Option.isNone = some k →
      addEntity es e = es.set k (some e)) ∧
    (es.findIdx? Option.isNone = none → addEntity es e = es ++ [some e]) := by
  induction es with
  | nil =>
    exact ⟨fun k hk => Option.noConfusion hk, fun _ => rfl⟩
  | cons s rest ih =>
    cases s with
    | none =>
      constructor
      · intro k hk
        rw [List.findIdx?_cons] at hk
        simp only [Option.isNone_none, if_true] at hk
        obtain rfl : (0 : Nat) = k := Option.some.inj hk
        rfl
      · intro hk
        rw [List.findIdx?_cons] at hk
        simp at hk
    | some x =>
      constructor
      · intro k hk
        rw [List.findIdx?_cons, List.findIdx?_succ] at hk
        simp only [Option.isNone_some, Bool.false_eq_true, if_false,
          Option.map_eq_some'] at hk
        obtain ⟨m, hm, hmk⟩ := hk
        subst hmk
        show some x :: addEntity rest e = (some x :: rest).set (m + 1) (some e)
        rw [ih.1 m hm]
        rfl
      · intro hk
        rw [List.findIdx?_cons, List.findIdx?_succ] at hk
        simp only [Option.isNone_some, Bool.false_eq_true, if_false,
          Option.map_eq_none'] at hk
        show some x :: addEntity rest e = (some x :: rest) ++ [some e]
        rw [ih.2 hk]
        rfl

/-- Witness world for claim C9: one tombstone among three slots. -/
def slotReuseWorld : List (Option Entity) :=
  [some { id := 1, components := [] }, none, some { id := 2, components := [] }]

/-- Witness for claim C9 at a concrete world: the tombstone at index 1 is
the one filled, not a new slot at the end. -/
theorem addEntity_first_tombstone_witness :
    slotReuseWorld.findIdx? Option.isNone = some 1 ∧
    addEntity slotReuseWorld { id := 3, components := [] } =
      slotReuseWorld.set 1 (some { id := 3, components := [] }) :=
  ⟨by decide,
   (addEntity_first_tombstone slotReuseWorld { id := 3, components := [] }).1 1
     (by decide)⟩

/-- Claim C8: one `MovementSystem` tick sends an entity with
Position `(x, y)` and Velocity `(vx, vy)` to Position `(x+vx, y+vy)`
(velocity unchanged, only the position component written), and leaves an
entity lacking either component completely unchanged; the pass is a total
function, so no error is raised. -/
theorem movement_euler_step (es : List (Option Entity)) (i : Nat) (e : Entity)
    (hslot : es.getD i none = some e) :
    (∀ px py vx vy, e.getPosition = some (px, py) →
      e.getVelocity = some (vx, vy) →
      (movementUpdate es).getD i none =
        some (e.setPosition (px + vx) (py + vy)) ∧
      (movementUpdateEntity e).getPosition = some (px + vx, py + vy) ∧
      (movementUpdateEntity e).getVelocity = e.getVelocity) ∧
    ((e.getPosition = none ∨ e.getVelocity = none) →
      (movementUpdate es).getD i none = some e) := by
  constructor
  · intro px py vx vy hp hv
    have hent : movementUpdateEntity e = e.setPosition (px + vx) (py + vy) := by
      unfold movementUpdateEntity
      rw [hp, hv]
    refine ⟨?_, ?_, ?_⟩
    · rw [movementUpdate, getD_map, hslot, Option.map_some', hent]
    · rw [hent, getPosition_setPosition e _ _ _ hp]
    · rw [hent, getVelocity_setPosition]
  · intro hmiss
    have hent : movementUpdateEntity e = e := by
      unfold movementUpdateEntity
      rcases hp : e.getPosition with _ | ⟨px, py⟩
      · rfl
      rcases hv : e.getVelocity with _ | ⟨vx, vy⟩
      · rfl
      rcases hmiss with hmiss | hmiss
      · rw [hp] at hmiss; exact Option.noConfusion hmiss
      · rw [hv] at hmiss; exact Option.noConfusion hmiss
    rw [movementUpdate, getD_map, hslot, Option.map_some', hent]

/-- Witness entities for claim C8. -/
def movingEntity : Entity :=
  { id := 11, components := [.position 3 4, .velocity 1 (-2)] }

/-- Witness entity for claim C8 lacking a Velocity component. -/
def stillEntity : Entity :=
  { id := 12, components := [.position 5 6] }

/-- Witness for claim C8 at a concrete world: the mover advances by its
velocity, the velocity-less entity is untouched. -/
theorem movement_euler_step_witness :
    (movementUpdate [some movingEntity, some stillEntity]).getD 0 none =
      some (movingEntity.setPosition (3 + 1) (4 + -2)) ∧
    (movementUpdate [some movingEntity, some stillEntity]).getD 1 none =
      some stillEntity :=
  ⟨((movement_euler_step [some movingEntity, some stillEntity] 0 movingEntity
      rfl).1 3 4 1 (-2) rfl rfl).1,
   (movement_euler_step [some movingEntity, some stillEntity] 1 stillEntity
      rfl).2 (Or.inr rfl)⟩

/-- Failing input for claim C3: an entity carrying Position and the
RemovableAtBoundary marker but neither Boundary nor Rectangle. -/
def strandedEntity : Entity :=
  { id := 7, components := [.position 0 0, .removableAtBoundary] }

/-- Claim C3 (code bug): a `BoundaryRemovalSystem` pass over an entity
carrying Position and RemovableAtBoundary but no Boundary does not
terminate normally — the source guards only `position` and `removable`
(src/index.js line 438), so evaluating `position.y < boundary.y` throws a
TypeError, which the model returns as `Except.error`. -/
theorem boundaryRemoval_missing_boundary_throws :
    boundaryRemovalUpdate [some strandedEntity] =
      Except.error "TypeError: boundary is undefined" := by
  rfl

/-- Claim C2 (amended): with Position, Rectangle, RemovableAtBoundary and
Boundary all present, the slot is tombstoned exactly when the entity's
rectangle is NOT entirely contained in the boundary rectangle — any
protrusion over an edge removes it, even while it still intersects the
boundary. -/
theorem boundaryRemoval_removes_iff_not_inside (e : Entity)
    (px py w h bx bY bw bh : ℚ)
    (hp : e.getPosition = some (px, py)) (hr : e.getRectangle = some (w, h))
    (hb : e.getBoundary = some (bx, bY, bw, bh))
    (hrem : e.getRemovable = true) :
    boundaryRemovalUpdate [some e] =
      Except.ok [if bY ≤ py ∧ py + h ≤ bY + bh ∧ bx ≤ px ∧ px + w ≤ bx + bw
                 then some e else none] := by
  have hcond : boundaryRemovalCondition e =
      Except.ok (decide (¬(bY ≤ py ∧ py + h ≤ bY + bh ∧ bx ≤ px ∧
        px + w ≤ bx + bw))) := by
    unfold boundaryRemovalCondition
    rw [hp, hb]
    dsimp only
    by_cases h1 : py < bY
    · rw [if_pos h1, show decide (¬(bY ≤ py ∧ py + h ≤ bY + bh ∧ bx ≤ px ∧
        px + w ≤ bx + bw)) = true from decide_eq_true (fun hc => by
          linarith [hc.1])]
    · rw [if_neg h1, hr]
      dsimp only
      by_cases h2 : py + h > bY + bh
      · rw [if_pos h2, show decide (¬(bY ≤ py ∧ py + h ≤ bY + bh ∧ bx ≤ px ∧
          px + w ≤ bx + bw)) = true from decide_eq_true (fun hc => by
            linarith [hc.2.1])]
      · rw [if_neg h2]
        by_cases h3 : px < bx
        · rw [if_pos h3, show decide (¬(bY ≤ py ∧ py + h ≤ bY + bh ∧ bx ≤ px ∧
            px + w ≤ bx + bw)) = true from decide_eq_true (fun hc => by
              linarith [hc.2.2.1])]
        · rw [if_neg h3]
          by_cases h4 : px + w > bx + bw
          · rw [if_pos h4, show decide (¬(bY ≤ py ∧ py + h ≤ bY + bh ∧
              bx ≤ px ∧ px + w ≤ bx + bw)) = true from decide_eq_true
                (fun hc => by linarith [hc.2.2.2])]
          · rw [if_neg h4, show decide (¬(bY ≤ py ∧ py + h ≤ bY + bh ∧
              bx ≤ px ∧ px + w ≤ bx + bw)) = false from decide_eq_false
                (not_not_intro ⟨by linarith, by linarith, by linarith,
                  by linarith⟩)]
  have hstep : boundaryRemovalStep [some e] 0 =
      Except.ok [if bY ≤ py ∧ py + h ≤ bY + bh ∧ bx ≤ px ∧ px + w ≤ bx + bw
                 then some e else none] := by
    unfold boundaryRemovalStep
    rw [show ([some e] : List (Option Entity)).getD 0 none = some e from rfl]
    dsimp only
    rw [show (e.getPosition.isNone || !e.getRemovable) = false by
      rw [hp, hrem]; rfl]
    rw [if_neg Bool.false_ne_true, hcond]
    by_cases hin : bY ≤ py ∧ py + h ≤ bY + bh ∧ bx ≤ px ∧ px + w ≤ bx + bw
    · rw [show decide (¬(bY ≤ py ∧ py + h ≤ bY + bh ∧ bx ≤ px ∧
        px + w ≤ bx + bw)) = false from decide_eq_false (not_not_intro hin),
        if_pos hin]
    · rw [show decide (¬(bY ≤ py ∧ py + h ≤ bY + bh ∧ bx ≤ px ∧
        px + w ≤ bx + bw)) = true from decide_eq_true hin, if_neg hin]
      rfl
  show boundaryRemovalLoop [some e] (List.range 1) = _
  rw [show List.range 1 = [0] from rfl,
    show boundaryRemovalLoop [some e] [0] =
      (match boundaryRemovalStep [some e] 0 with
       | .error msg => .error msg
       | .ok es => boundaryRemovalLoop es []) from rfl,
    hstep]
  rfl

/-- Witness entity for claim C2: fully inside its boundary, preserved. -/
def insideEntity : Entity :=
  { id := 13,
    components := [.position 5 5, .rectangle 10 10, .boundary 0 0 100 100,
                   .removableAtBoundary] }

/-- Witness for claim C2's amended theorem at a concrete inside entity:
it is preserved. -/
theorem boundaryRemoval_removes_iff_not_inside_witness :
    boundaryRemovalUpdate [some insideEntity] =
      Except.ok [if (0:ℚ) ≤ 5 ∧ (5:ℚ) + 10 ≤ 0 + 100 ∧ (0:ℚ) ≤ 5 ∧
                 (5:ℚ) + 10 ≤ 0 + 100 then some insideEntity else none] :=
  boundaryRemoval_removes_iff_not_inside insideEntity 5 5 10 10 0 0 100 100
    rfl rfl rfl rfl

/-- Counterexample entity for claim C2: protrudes past the boundary's
left edge while still intersecting the boundary. -/
def protrudingEntity : Entity :=
  { id := 6,
    components := [.position (-1) 10, .rectangle 10 10, .boundary 0 0 100 100,
                   .removableAtBoundary] }

/-- Counterexample for claim C2 as stated: this entity's rectangle
overlaps the boundary rectangle (it is not entirely outside), yet one
`BoundaryRemovalSystem` pass tombstones it rather than preserving it. -/
theorem boundaryRemoval_partial_overlap_removed_cex :
    overlaps (-1) 10 10 10 0 0 100 100 = true ∧
    boundaryRemovalUpdate [some protrudingEntity] = Except.ok [none] := by
  constructor
  · norm_num [overlaps]
  · norm_num [boundaryRemovalUpdate, boundaryRemovalLoop, boundaryRemovalStep,
      boundaryRemovalCondition, protrudingEntity, Entity.getPosition,
      Entity.getBoundary, Entity.getRectangle, Entity.getRemovable,
      isPosition, isBoundary, isRectangle, isRemovable, List.find?,
      List.getD, List.range_succ]

/-- One axis of the boundary clamp sequence: the low check first
(snapping the coordinate to the literal 0 and zeroing the velocity), then
the high check on the possibly rewritten coordinate.
`boundaryUpdateEntity`'s x-axis computation is definitionally
`clampAxis bx bw w px vx` and its y-axis computation
`clampAxis bY bh h py vy`; the source interleaves the four checks as
left, top, right, bottom, but the two axes touch disjoint fields. -/
def clampAxis (b W w x v : ℚ) : ℚ × ℚ :=
  if (if x < b then ((0 : ℚ), (0 : ℚ)) else (x, v)).1 + w > b + W
  then (b + W - w, 0)
  else if x < b then (0, 0) else (x, v)

theorem clampAxis_fst (b W w x v : ℚ) :
    (clampAxis b W w x v).1 =
      if (if x < b then 0 else x) + w > b + W then b + W - w
      else if x < b then 0 else x := by
  unfold clampAxis
  by_cases h1 : x < b
  · rw [if_pos h1, if_pos h1]
    dsimp only
    by_cases h2 : (0 : ℚ) + w > b + W
    · rw [if_pos h2, if_pos h2]
    · rw [if_neg h2, if_neg h2]
  · rw [if_neg h1, if_neg h1]
    dsimp only
    by_cases h2 : x + w > b + W
    · rw [if_pos h2, if_pos h2]
    · rw [if_neg h2, if_neg h2]

theorem clampAxis_snd (b W w x v : ℚ) :
    (clampAxis b W w x v).2 =
      if (if x < b then 0 else x) + w > b + W then 0
      else if x < b then 0 else v := by
  unfold clampAxis
  by_cases h1 : x < b
  · rw [if_pos h1, if_pos h1]
    dsimp only
    by_cases h2 : (0 : ℚ) + w > b + W
    · rw [if_pos h2, if_pos h2]
    · rw [if_neg h2, if_neg h2, if_pos h1]
  · rw [if_neg h1, if_neg h1]
    dsimp only
    by_cases h2 : x + w > b + W
    · rw [if_pos h2, if_pos h2]
    · rw [if_neg h2, if_neg h2, if_neg h1]

theorem boundaryUpdateEntity_of_components (e : Entity)
    (px py w h bx bY bw bh vx vy : ℚ)
    (hp : e.getPosition = some (px, py)) (hr : e.getRectangle = some (w, h))
    (hb : e.getBoundary = some (bx, bY, bw, bh))
    (hv : e.getVelocity = some (vx, vy)) :
    boundaryUpdateEntity e =
      (e.setPosition (clampAxis bx bw w px vx).1
        (clampAxis bY bh h py vy).1).setVelocity
        (clampAxis bx bw w px vx).2 (clampAxis bY bh h py vy).2 := by
  unfold boundaryUpdateEntity
  rw [hp, hr, hb, hv]
  rfl

theorem boundaryUpdateEntity_of_missing (e : Entity)
    (hmiss : e.getPosition = none ∨ e.getRectangle = none ∨
      e.getBoundary = none ∨ e.getVelocity = none) :
    boundaryUpdateEntity e = e := by
  unfold boundaryUpdateEntity
  rcases hp : e.getPosition with _ | ⟨px, py⟩
  · rfl
  rcases hr : e.getRectangle with _ | ⟨w, h⟩
  · rfl
  rcases hb : e.getBoundary with _ | ⟨bx, bY, bw, bh⟩
  · rfl
  rcases hv : e.getVelocity with _ | ⟨vx, vy⟩
  · rfl
  rcases hmiss with hmiss | hmiss | hmiss | hmiss <;> simp_all

/-- Claim C6: one `BoundarySystem` tick over an entity carrying Position,
Rectangle, Boundary and Velocity performs, per axis, the low clamp to the
LITERAL 0 (not `boundary.x`/`boundary.y`) and then the high clamp to
`boundary.x + boundary.width - rectangle.width` on the possibly already
rewritten coordinate, zeroing the velocity component of every axis whose
clamp fired. -/
theorem boundary_clamp_literal_zero (es : List (Option Entity)) (i : Nat)
    (e : Entity) (px py w h bx bY bw bh vx vy : ℚ)
    (hslot : es.getD i none = some e)
    (hp : e.getPosition = some (px, py)) (hr : e.getRectangle = some (w, h))
    (hb : e.getBoundary = some (bx, bY, bw, bh))
    (hv : e.getVelocity = some (vx, vy)) :
    ∃ e', (boundaryUpdate es).getD i none = some e' ∧
      e'.getPosition = some
        (if (if px < bx then 0 else px) + w > bx + bw then bx + bw - w
         else if px < bx then 0 else px,
         if (if py < bY then 0 else py) + h > bY + bh then bY + bh - h
         else if py < bY then 0 else py) ∧
      e'.getVelocity = some
        (if (if px < bx then 0 else px) + w > bx + bw then 0
         else if px < bx then 0 else vx,
         if (if py < bY then 0 else py) + h > bY + bh then 0
         else if py < bY then 0 else vy) := by
  refine ⟨boundaryUpdateEntity e, ?_, ?_, ?_⟩
  · rw [boundaryUpdate, getD_map, hslot, Option.map_some']
  · rw [boundaryUpdateEntity_of_components e px py w h bx bY bw bh vx vy
      hp hr hb hv, getPosition_setVelocity,
      getPosition_setPosition _ _ _ _ hp, clampAxis_fst, clampAxis_fst]
  · rw [boundaryUpdateEntity_of_components e px py w h bx bY bw bh vx vy
      hp hr hb hv]
    rw [getVelocity_setVelocity _ _ _ (vx, vy)
      (by rw [getVelocity_setPosition]; exact hv)]
    rw [clampAxis_snd, clampAxis_snd]

/-- Witness entity for claim C6: past the left edge of a boundary whose
own x is 2, so the literal-0 snap is observable. -/
def leftClampEntity : Entity :=
  { id := 15,
    components := [.position (-5) 10, .rectangle 10 10, .boundary 2 0 100 100,
                   .velocity (-3) 1] }

/-- Witness for claim C6 at a concrete entity: the left clamp writes the
literal 0 (not boundary.x = 2) and zeroes the x-velocity, while the
y-axis is untouched. -/
theorem boundary_clamp_literal_zero_witness :
    ∃ e', (boundaryUpdate [some leftClampEntity]).getD 0 none = some e' ∧
      e'.getPosition = some (0, 10) ∧ e'.getVelocity = some (0, 1) := by
  obtain ⟨e', h1, h2, h3⟩ := boundary_clamp_literal_zero [some leftClampEntity]
    0 leftClampEntity (-5) 10 10 10 2 0 100 100 (-3) 1 rfl rfl rfl rfl rfl
  refine ⟨e', h1, ?_, ?_⟩
  · rw [h2]
    norm_num
  · rw [h3]
    norm_num

theorem clampAxis_idem (b W w x v : ℚ) (hw : w ≤ W) :
    clampAxis b W w (clampAxis b W w x v).1 (clampAxis b W w x v).2 =
      clampAxis b W w x v := by
  refine Prod.ext ?_ ?_
  · rw [clampAxis_fst, clampAxis_fst b W w x v]
    split_ifs <;> first | rfl | linarith
  · rw [clampAxis_snd, clampAxis_fst b W w x v, clampAxis_snd b W w x v]
    split_ifs <;> first | rfl | linarith

theorem setFirst_eq_self (p : Component → Bool) (c : Component)
    (l : List Component) (h : l.find? p = some c) : setFirst p c l = l := by
  induction l with
  | nil => simp at h
  | cons x xs ih =>
    by_cases hp : p x
    · rw [List.find?_cons_of_pos _ hp] at h
      obtain rfl := Option.some.inj h
      simp [setFirst, hp]
    · rw [List.find?_cons_of_neg _ (by simp [hp])] at h
      simp [setFirst, hp, ih h]

theorem find?_eq_of_getPosition (e : Entity) (x y : ℚ)
    (h : e.getPosition = some (x, y)) :
    e.components.find? isPosition = some (.position x y) := by
  unfold Entity.getPosition at h
  cases hf : e.components.find? isPosition with
  | none => rw [hf] at h; exact Option.noConfusion h
  | some c =>
    rw [hf] at h
    cases c <;> simp_all

theorem find?_eq_of_getVelocity (e : Entity) (x y : ℚ)
    (h : e.getVelocity = some (x, y)) :
    e.components.find? isVelocity = some (.velocity x y) := by
  unfold Entity.getVelocity at h
  cases hf : e.components.find? isVelocity with
  | none => rw [hf] at h; exact Option.noConfusion h
  | some c =>
    rw [hf] at h
    cases c <;> simp_all

theorem setPosition_self (e : Entity) (x y : ℚ)
    (h : e.getPosition = some (x, y)) : e.setPosition x y = e := by
  unfold Entity.setPosition
  rw [setFirst_eq_self isPosition _ _ (find?_eq_of_getPosition e x y h)]

theorem setVelocity_self (e : Entity) (x y : ℚ)
    (h : e.getVelocity = some (x, y)) : e.setVelocity x y = e := by
  unfold Entity.setVelocity
  rw [setFirst_eq_self isVelocity _ _ (find?_eq_of_getVelocity e x y h)]

/-- An entity's rectangle fits inside its boundary on both axes, whenever
it carries both components.  Outside this regime the literal-0 low clamp
makes the boundary pass non-idempotent (see the counterexample). -/
def boundaryFits (e : Entity) : Prop :=
  ∀ w h bx bY bw bh : ℚ, e.getRectangle = some (w, h) →
    e.getBoundary = some (bx, bY, bw, bh) → w ≤ bw ∧ h ≤ bh

theorem boundaryUpdateEntity_idem (e : Entity) (hfit : boundaryFits e) :
    boundaryUpdateEntity (boundaryUpdateEntity e) = boundaryUpdateEntity e := by
  rcases hp : e.getPosition with _ | ⟨px, py⟩
  · rw [boundaryUpdateEntity_of_missing e (Or.inl hp),
      boundaryUpdateEntity_of_missing e (Or.inl hp)]
  rcases hr : e.getRectangle with _ | ⟨w, h⟩
  · rw [boundaryUpdateEntity_of_missing e (Or.inr (Or.inl hr)),
      boundaryUpdateEntity_of_missing e (Or.inr (Or.inl hr))]
  rcases hb : e.getBoundary with _ | ⟨bx, bY, bw, bh⟩
  · rw [boundaryUpdateEntity_of_missing e (Or.inr (Or.inr (Or.inl hb))),
      boundaryUpdateEntity_of_missing e (Or.inr (Or.inr (Or.inl hb)))]
  rcases hv : e.getVelocity with _ | ⟨vx, vy⟩
  · rw [boundaryUpdateEntity_of_missing e (Or.inr (Or.inr (Or.inr hv))),
      boundaryUpdateEntity_of_missing e (Or.inr (Or.inr (Or.inr hv)))]
  obtain ⟨hww, hhh⟩ := hfit w h bx bY bw bh hr hb
  have he1 := boundaryUpdateEntity_of_components e px py w h bx bY bw bh vx vy
    hp hr hb hv
  have hgp : (boundaryUpdateEntity e).getPosition =
      some ((clampAxis bx bw w px vx).1, (clampAxis bY bh h py vy).1) := by
    rw [he1, getPosition_setVelocity, getPosition_setPosition _ _ _ _ hp]
  have hgr : (boundaryUpdateEntity e).getRectangle = some (w, h) := by
    rw [he1, getRectangle_setVelocity, getRectangle_setPosition, hr]
  have hgb : (boundaryUpdateEntity e).getBoundary = some (bx, bY, bw, bh) := by
    rw [he1, getBoundary_setVelocity, getBoundary_setPosition, hb]
  have hgv : (boundaryUpdateEntity e).getVelocity =
      some ((clampAxis bx bw w px vx).2, (clampAxis bY bh h py vy).2) := by
    rw [he1]
    exact getVelocity_setVelocity _ _ _ (vx, vy)
      (by rw [getVelocity_setPosition]; exact hv)
  rw [boundaryUpdateEntity_of_components (boundaryUpdateEntity e)
    _ _ w h bx bY bw bh _ _ hgp hgr hgb hgv]
  rw [clampAxis_idem bx bw w px vx hww, clampAxis_idem bY bh h py vy hhh]
  rw [setPosition_self _ _ _ hgp, setVelocity_self _ _ _ hgv]

/-- Claim C7 (amended): one `BoundarySystem` tick is idempotent on every
world whose entities' rectangles fit inside their boundaries on both
axes; the counterexample shows the restriction is needed because the
low clamp snaps to the literal 0 rather than the boundary's own edge. -/
theorem boundary_idempotent_of_fits (es : List (Option Entity))
    (hfit : ∀ e : Entity, some e ∈ es → boundaryFits e) :
    boundaryUpdate (boundaryUpdate es) = boundaryUpdate es := by
  unfold boundaryUpdate
  rw [List.map_map]
  apply List.map_congr_left
  intro s hs
  cases s with
  | none => rfl
  | some e =>
    show some (boundaryUpdateEntity (boundaryUpdateEntity e)) =
      some (boundaryUpdateEntity e)
    rw [boundaryUpdateEntity_idem e (hfit e hs)]

/-- Witness entity for claim C7's amended theorem: fits its boundary. -/
def fitEntity : Entity :=
  { id := 14,
    components := [.position 150 (-3), .rectangle 10 10, .boundary 0 0 100 100,
                   .velocity 2 2] }

/-- Witness for claim C7's amended theorem at a concrete world. -/
theorem boundary_idempotent_of_fits_witness :
    boundaryUpdate (boundaryUpdate [some fitEntity, none]) =
      boundaryUpdate [some fitEntity, none] :=
  boundary_idempotent_of_fits [some fitEntity, none] (by
    intro e he w h bx bY bw bh hr hb
    have he' : e = fitEntity := by simpa using he
    subst he'
    rw [show fitEntity.getRectangle = some (10, 10) from rfl] at hr
    rw [show fitEntity.getBoundary = some (0, 0, 100, 100) from rfl] at hb
    injection hr with hr'
    injection hr' with hr1 hr2
    injection hb with hb'
    injection hb' with hb1 hb''
    injection hb'' with hb2 hb'''
    injection hb''' with hb3 hb4
    subst hr1; subst hr2; subst hb3; subst hb4
    norm_num)

/-- Counterexample entity for claim C7 as stated: its rectangle (width
10) is wider than its boundary (width 5, starting at x = 20). -/
def thinBoundaryEntity : Entity :=
  { id := 8,
    components := [.position 30 0, .rectangle 10 5, .boundary 20 0 5 100,
                   .velocity 0 0] }

/-- Counterexample for claim C7 as stated: one pass puts this entity at
x = 15 (right clamp), a second pass moves it again to x = 0 (left clamp
to the literal 0, then the right condition no longer fires), so running
`BoundarySystem` twice differs from running it once. -/
theorem boundary_not_idempotent_cex :
    boundaryUpdate (boundaryUpdate [some thinBoundaryEntity]) ≠
      boundaryUpdate [some thinBoundaryEntity] := by
  norm_num [boundaryUpdate, boundaryUpdateEntity, thinBoundaryEntity,
    Entity.getPosition, Entity.getBoundary, Entity.getRectangle,
    Entity.getVelocity, Entity.setPosition, Entity.setVelocity, isPosition,
    isBoundary, isRectangle, isVelocity, setFirst, List.find?, List.getD]

theorem overlaps_eq_true_iff (px py w h qx qy u t : ℚ) :
    overlaps px py w h qx qy u t = true ↔
      (px < qx + u ∧ px + w > qx ∧ py < qy + t ∧ py + h > qy) := by
  unfold overlaps
  simp [Bool.and_eq_true, decide_eq_true_eq, and_assoc]

theorem overlaps_symm (px py w h qx qy u t : ℚ) :
    overlaps qx qy u t px py w h = overlaps px py w h qx qy u t := by
  rw [Bool.eq_iff_iff, overlaps_eq_true_iff, overlaps_eq_true_iff]
  constructor <;> rintro ⟨h1, h2, h3, h4⟩ <;>
    exact ⟨by linarith, by linarith, by linarith, by linarith⟩

theorem collisionOuterStep_of_subject (n : Nat) (es : List (Option Entity))
    (j : Nat) (s : Entity) (px py w h : ℚ) (hslot : es.getD j none = some s)
    (hp : s.getPosition = some (px, py)) (hr : s.getRectangle = some (w, h)) :
    collisionOuterStep n es j =
      collisionInnerLoop s px py w h j es (List.range n) := by
  unfold collisionOuterStep
  rw [hslot]
  dsimp only
  rw [hp, hr]

theorem collisionOuterStep_of_none (n : Nat) (es : List (Option Entity))
    (j : Nat) (hslot : es.getD j none = none) : collisionOuterStep n es j = es := by
  unfold collisionOuterStep
  rw [hslot]

/-- Claim C5: in a two-entity world of non-exempt entities carrying
Position and Rectangle, one `CollisionSystem` tick tombstones both slots
exactly when the strict axis-aligned overlap test holds, and leaves the
world unchanged when the rectangles are disjoint. -/
theorem collision_two_entities (A B : Entity) (axA ayA wA hA bxB byB wB hB : ℚ)
    (hid : A.id ≠ B.id)
    (hpA : A.getPosition = some (axA, ayA))
    (hrA : A.getRectangle = some (wA, hA))
    (hpB : B.getPosition = some (bxB, byB))
    (hrB : B.getRectangle = some (wB, hB))
    (hw1 : (A.getWhitelist.getD []).contains B.id = false)
    (hw2 : (B.getWhitelist.getD []).contains A.id = false) :
    (overlaps axA ayA wA hA bxB byB wB hB = true →
      collisionUpdate [some A, some B] = [none, none]) ∧
    (overlaps axA ayA wA hA bxB byB wB hB = false →
      collisionUpdate [some A, some B] = [some A, some B]) := by
  have h0 : collisionUpdate [some A, some B] =
      collisionOuterLoop 2 [some A, some B] [0, 1] := rfl
  constructor
  · intro hov
    have e1 : collisionInnerStep A axA ayA wA hA 0 0 [some A, some B] =
        [some A, some B] :=
      collisionInnerStep_of_same A axA ayA wA hA 0 0 [some A, some B] A rfl rfl
    have e2 : collisionInnerStep A axA ayA wA hA 0 1 [some A, some B] =
        [none, none] := by
      rw [collisionInnerStep_of_overlap A axA ayA wA hA 0 1 [some A, some B] B
        bxB byB wB hB rfl hid hw1 hw2 hpB hrB hov]
      rfl
    rw [h0]
    simp only [collisionOuterLoop]
    rw [collisionOuterStep_of_subject 2 [some A, some B] 0 A axA ayA wA hA
      rfl hpA hrA]
    rw [show List.range 2 = [0, 1] from rfl]
    simp only [collisionInnerLoop]
    rw [e1, e2]
    rw [collisionOuterStep_of_none 2 [none, none] 1 rfl]
  · intro hov
    have e1 : collisionInnerStep A axA ayA wA hA 0 0 [some A, some B] =
        [some A, some B] :=
      collisionInnerStep_of_same A axA ayA wA hA 0 0 [some A, some B] A rfl rfl
    have e2 : collisionInnerStep A axA ayA wA hA 0 1 [some A, some B] =
        [some A, some B] :=
      collisionInnerStep_of_no_overlap A axA ayA wA hA 0 1 [some A, some B] B
        bxB byB wB hB rfl hid hw1 hw2 hpB hrB hov
    have hovBA : overlaps bxB byB wB hB axA ayA wA hA = false :=
      (overlaps_symm axA ayA wA hA bxB byB wB hB).trans hov
    have e3 : collisionInnerStep B bxB byB wB hB 1 0 [some A, some B] =
        [some A, some B] :=
      collisionInnerStep_of_no_overlap B bxB byB wB hB 1 0 [some A, some B] A
        axA ayA wA hA rfl (fun hc => hid hc.symm) hw2 hw1 hpA hrA hovBA
    have e4 : collisionInnerStep B bxB byB wB hB 1 1 [some A, some B] =
        [some A, some B] :=
      collisionInnerStep_of_same B bxB byB wB hB 1 1 [some A, some B] B rfl rfl
    rw [h0]
    simp only [collisionOuterLoop]
    rw [collisionOuterStep_of_subject 2 [some A, some B] 0 A axA ayA wA hA
      rfl hpA hrA]
    rw [show List.range 2 = [0, 1] from rfl]
    simp only [collisionInnerLoop]
    rw [e1, e2]
    rw [collisionOuterStep_of_subject 2 [some A, some B] 1 B bxB byB wB hB
      rfl hpB hrB]
    rw [show List.range 2 = [0, 1] from rfl]
    simp only [collisionInnerLoop]
    rw [e3, e4]

/-- Witness entities for claim C5: the spec's overlapping pair
`[0,0,10,10]` and `[5,5,10,10]`, and the disjoint pair partner at
`[20,20,10,10]`. -/
def collA : Entity :=
  { id := 21, components := [.position 0 0, .rectangle 10 10, .whitelist []] }

/-- Second witness entity for claim C5 (overlapping partner). -/
def collB : Entity :=
  { id := 22, components := [.position 5 5, .rectangle 10 10, .whitelist []] }

/-- Third witness entity for claim C5 (disjoint partner). -/
def collC : Entity :=
  { id := 23,
    components := [.position 20 20, .rectangle 10 10, .whitelist []] }

/-- Witness for claim C5 at the spec's concrete rectangles: the
overlapping pair is wholly tombstoned, the disjoint pair preserved. -/
theorem collision_two_entities_witness :
    collisionUpdate [some collA, some collB] = [none, none] ∧
    collisionUpdate [some collA, some collC] = [some collA, some collC] :=
  ⟨(collision_two_entities collA collB 0 0 10 10 5 5 10 10 (by decide)
      rfl rfl rfl rfl rfl rfl).1 (by norm_num [overlaps]),
   (collision_two_entities collA collC 0 0 10 10 20 20 10 10 (by decide)
      rfl rfl rfl rfl rfl rfl).2 (by norm_num [overlaps])⟩

/-- Claim C4: in a two-entity world of overlapping entities carrying
Position and Rectangle, a whitelist entry in either direction alone is
enough to exempt the pair: one `CollisionSystem` tick tombstones neither. -/
theorem collision_whitelist_exempt (A B : Entity)
    (axA ayA wA hA bxB byB wB hB : ℚ) (hid : A.id ≠ B.id)
    (hpA : A.getPosition = some (axA, ayA))
    (hrA : A.getRectangle = some (wA, hA))
    (hpB : B.getPosition = some (bxB, byB))
    (hrB : B.getRectangle = some (wB, hB))
    (hov : overlaps axA ayA wA hA bxB byB wB hB = true)
    (hwl : (A.getWhitelist.getD []).contains B.id = true ∨
           (B.getWhitelist.getD []).contains A.id = true) :
    collisionUpdate [some A, some B] = [some A, some B] := by
  have h0 : collisionUpdate [some A, some B] =
      collisionOuterLoop 2 [some A, some B] [0, 1] := rfl
  have e1 : collisionInnerStep A axA ayA wA hA 0 0 [some A, some B] =
      [some A, some B] :=
    collisionInnerStep_of_same A axA ayA wA hA 0 0 [some A, some B] A rfl rfl
  have e2 : collisionInnerStep A axA ayA wA hA 0 1 [some A, some B] =
      [some A, some B] := by
    rcases hwl with hwl | hwl
    · exact collisionInnerStep_of_wl_subject A axA ayA wA hA 0 1 [some A, some B] B rfl hwl
    · exact collisionInnerStep_of_wl_other A axA ayA wA hA 0 1 [some A, some B] B rfl hwl
  have e3 : collisionInnerStep B bxB byB wB hB 1 0 [some A, some B] =
      [some A, some B] := by
    rcases hwl with hwl | hwl
    · exact collisionInnerStep_of_wl_other B bxB byB wB hB 1 0 [some A, some B] A rfl hwl
    · exact collisionInnerStep_of_wl_subject B bxB byB wB hB 1 0 [some A, some B] A rfl hwl
  have e4 : collisionInnerStep B bxB byB wB hB 1 1 [some A, some B] =
      [some A, some B] :=
    collisionInnerStep_of_same B bxB byB wB hB 1 1 [some A, some B] B rfl rfl
  rw [h0]
  simp only [collisionOuterLoop]
  rw [collisionOuterStep_of_subject 2 [some A, some B] 0 A axA ayA wA hA
    rfl hpA hrA]
  rw [show List.range 2 = [0, 1] from rfl]
  simp only [collisionInnerLoop]
  rw [e1, e2]
  rw [collisionOuterStep_of_subject 2 [some A, some B] 1 B bxB byB wB hB
    rfl hpB hrB]
  rw [show List.range 2 = [0, 1] from rfl]
  simp only [collisionInnerLoop]
  rw [e3, e4]

/-- Witness entity for claim C4: overlaps `exemptOther` and lists it. -/
def exemptSubject : Entity :=
  { id := 31,
    components := [.position 0 0, .rectangle 10 10, .whitelist [32]] }

/-- Witness entity for claim C4: overlapped, with an empty whitelist, so
only the one-directional entry on `exemptSubject` protects the pair. -/
def exemptOther : Entity :=
  { id := 32, components := [.position 5 5, .rectangle 10 10, .whitelist []] }

/-- Witness for claim C4 at concrete entities: a one-directional
whitelist entry suffices to preserve both overlapping entities. -/
theorem collision_whitelist_exempt_witness :
    overlaps 0 0 10 10 5 5 10 10 = true ∧
    collisionUpdate [some exemptSubject, some exemptOther] =
      [some exemptSubject, some exemptOther] :=
  ⟨by norm_num [overlaps],
   collision_whitelist_exempt exemptSubject exemptOther 0 0 10 10 5 5 10 10
     (by decide) rfl rfl rfl rfl (by norm_num [overlaps]) (Or.inl rfl)⟩

/-- Counterexample entity for claim C1: the subject at slot 0, whose
rectangle covers both later entities. -/
def cexSubject : Entity :=
  { id := 1, components := [.position 0 0, .rectangle 10 10] }

/-- Counterexample entity for claim C1: the subject's first detected
overlap, at slot 1. -/
def cexFirstHit : Entity :=
  { id := 2, components := [.position 0 0, .rectangle 3 3] }

/-- Counterexample entity for claim C1: overlaps only the subject, at
slot 2, and is disjoint from the slot-1 entity. -/
def cexSecondHit : Entity :=
  { id := 3, components := [.position 7 7, .rectangle 3 3] }

/-- Counterexample for claim C1 as stated: the subject overlaps both
later entities, which are disjoint from each other, so after the
subject's first detected overlap (with slot 1) tombstones slots 0 and 1,
the claim predicts slot 2 survives — yet the pass tombstones all three
slots, because the inner scan keeps comparing the locally held subject
after its slot was nulled. -/
theorem collision_subject_continues_cex :
    overlaps 0 0 10 10 0 0 3 3 = true ∧
    overlaps 0 0 10 10 7 7 3 3 = true ∧
    overlaps 0 0 3 3 7 7 3 3 = false ∧
    collisionUpdate [some cexSubject, some cexFirstHit, some cexSecondHit] =
      [none, none, none] := by
  refine ⟨by norm_num [overlaps], by norm_num [overlaps],
    by norm_num [overlaps], ?_⟩
  norm_num [collisionUpdate, collisionOuterLoop, collisionOuterStep,
    collisionInnerLoop, collisionInnerStep, overlaps, cexSubject, cexFirstHit,
    cexSecondHit, Entity.getPosition, Entity.getRectangle, Entity.getWhitelist,
    isPosition, isRectangle, isWhitelist, List.find?, List.getD,
    List.range_succ, List.set]

/-- Claim C1 (amended): once a slot is tombstoned it is observed as empty
by every later slot read — later outer iterations skip it and the pass
never revives it — BUT the outer loop's current subject is held by
value, so after the subject's slot is tombstoned by its first detected
overlap the remainder of its inner scan still compares the subject and
tombstones every further live, non-exempt entity overlapping it (stated
for the subject at slot 0, whose inner scan runs on the original
array). -/
theorem collision_tombstone_policy (es : List (Option Entity)) :
    (∀ i, es.getD i none = none → (collisionUpdate es).getD i none = none) ∧
    (∀ s px py w h i o opx opy ow oh,
      es.getD 0 none = some s →
      s.getPosition = some (px, py) → s.getRectangle = some (w, h) →
      i ≠ 0 → es.getD i none = some o → ¬s.id = o.id →
      (s.getWhitelist.getD []).contains o.id = false →
      (o.getWhitelist.getD []).contains s.id = false →
      o.getPosition = some (opx, opy) → o.getRectangle = some (ow, oh) →
      overlaps px py w h opx opy ow oh = true →
      (collisionUpdate es).getD i none = none) := by
  constructor
  · intro i hi
    exact collisionOuterLoop_preserves_none es.length i (List.range es.length)
      es hi
  · intro s px py w h i o opx opy ow oh h0 hp hr hi0 hio hid hw1 hw2 hop hor hov
    have hlen : 0 < es.length := lt_length_of_getD_some es 0 s h0
    obtain ⟨m, hm⟩ : ∃ m, es.length = m + 1 :=
      ⟨es.length - 1, (Nat.succ_pred_eq_of_pos hlen).symm⟩
    have hcu : collisionUpdate es =
        collisionOuterLoop es.length (collisionOuterStep es.length es 0)
          (List.map Nat.succ (List.range m)) := by
      rw [collisionUpdate,
        show List.range es.length = 0 :: List.map Nat.succ (List.range m) by
          rw [hm, List.range_succ_eq_map]]
      rfl
    rw [hcu]
    apply collisionOuterLoop_preserves_none
    rw [collisionOuterStep_of_subject es.length es 0 s px py w h h0 hp hr]
    exact collisionInnerLoop_tombstones s px py w h 0 i o opx opy ow oh
      (List.range es.length) hi0 hid hw1 hw2 hop hor hov es
      (List.mem_range.mpr (lt_length_of_getD_some es i o hio)) hio

/-- Witness for claim C1's amended theorem: an input tombstone survives
the pass, and in the counterexample world the slot-2 entity — live,
non-exempt and overlapping the slot-0 subject — is tombstoned by the
subject's scan. -/
theorem collision_tombstone_policy_witness :
    (collisionUpdate [none, some cexFirstHit]).getD 0 none = none ∧
    (collisionUpdate
      [some cexSubject, some cexFirstHit, some cexSecondHit]).getD 2 none =
      none :=
  ⟨(collision_tombstone_policy [none, some cexFirstHit]).1 0 rfl,
   (collision_tombstone_policy
      [some cexSubject, some cexFirstHit, some cexSecondHit]).2
     cexSubject 0 0 10 10 2 cexSecondHit 7 7 3 3 rfl rfl rfl (by decide) rfl
     (by decide) rfl rfl rfl rfl (by norm_num [overlaps])⟩

theorem liveCount_addEntity (es : List (Option Entity)) (e : Entity) :
    liveCount (addEntity es e) = liveCount es + 1 := by
  induction es with
  | nil => rfl
  | cons s rest ih =>
    cases s with
    | none =>
      simp [addEntity, liveCount, List.countP_cons]
    | some x =>
      simp only [addEntity, liveCount, List.countP_cons] at ih ⊢
      omega

theorem liveCount_set_some (es : List (Option Entity)) (k : Nat) (a b : Entity)
    (h : es.getD k none = some b) :
    liveCount (es.set k (some a)) = liveCount es := by
  induction es generalizing k with
  | nil => exact Option.noConfusion h
  | cons s rest ih =>
    cases k with
    | zero =>
      obtain rfl : s = some b := h
      rfl
    | succ k' =>
      show liveCount (s :: rest.set k' (some a)) = liveCount (s :: rest)
      simp only [liveCount, List.countP_cons]
      rw [show (rest.set k' (some a)).countP Option.isSome =
        rest.countP Option.isSome from ih k' h]

/-- Claim C10: one `SpawnSystem` call against a world whose spawner (the
first Spawn-carrying slot, at index `k`) holds `lastSpawn = l` and
`count = c`: a call within 100 ms of the previous eligible call (which
set `lastSpawn`) changes nothing; an eligible call sets `lastSpawn` to
`now` and increments the counter by exactly one; and exactly when the new
count reaches a multiple of 10 one enemy is inserted via the slot-reuse
scan (`addEntity`), raising the live-entity count by one — all other
eligible calls insert none. -/
theorem spawn_cadence (now l c : Int) (cw ch rPos rVel : ℚ) (neg : Bool)
    (newId : Nat) (es : List (Option Entity)) (k : Nat) (spawner : Entity)
    (hk : es.findIdx? hasSpawn = some k)
    (hs : es.getD k none = some spawner)
    (hl : spawner.getSpawn = some l)
    (hc : spawner.getCounter = some c) :
    (now - l < 100 → spawnUpdate now cw ch rPos rVel neg newId es = es) ∧
    (100 ≤ now - l →
      ∃ spawner',
        spawner' = (spawner.setSpawn now).setCounter (c + 1) ∧
        spawner'.getSpawn = some now ∧
        spawner'.getCounter = some (c + 1) ∧
        spawnUpdate now cw ch rPos rVel neg newId es =
          (if (c + 1) % 10 = 0
           then addEntity (es.set k (some spawner'))
             (enemyShipAssemblage newId cw ch (rPos * cw) 0 rVel neg)
           else es.set k (some spawner')) ∧
        liveCount (spawnUpdate now cw ch rPos rVel neg newId es) =
          liveCount es + (if (c + 1) % 10 = 0 then 1 else 0)) := by
  have hupdate : spawnUpdate now cw ch rPos rVel neg newId es =
      if now - l < 100 then es
      else (if (c + 1) % 10 = 0
            then addEntity
              (es.set k (some ((spawner.setSpawn now).setCounter (c + 1))))
              (enemyShipAssemblage newId cw ch (rPos * cw) 0 rVel neg)
            else es.set k (some ((spawner.setSpawn now).setCounter (c + 1)))) := by
    unfold spawnUpdate
    rw [hk]
    dsimp only
    rw [hs]
    dsimp only
    rw [hl, hc]
  constructor
  · intro h
    rw [hupdate, if_pos h]
  · intro h
    have hnl : ¬(now - l < 100) := not_lt.mpr h
    refine ⟨(spawner.setSpawn now).setCounter (c + 1), rfl, ?_, ?_, ?_, ?_⟩
    · rw [getSpawn_setCounter, getSpawn_setSpawn spawner now l hl]
    · exact getCounter_setCounter _ _ c (by rw [getCounter_setSpawn]; exact hc)
    · rw [hupdate, if_neg hnl]
    · rw [hupdate, if_neg hnl]
      by_cases h10 : (c + 1) % 10 = 0
      · rw [if_pos h10, if_pos h10, liveCount_addEntity,
          liveCount_set_some es k _ spawner hs]
      · rw [if_neg h10, if_neg h10, liveCount_set_some es k _ spawner hs,
          Nat.add_zero]

/-- Witness spawner for claim C10: nine eligible calls already counted,
so the next eligible call is the tenth. -/
def demoSpawner : Entity := { id := 9, components := [.spawn 0, .counter 9] }

/-- Witness for claim C10 at a concrete world: the tenth eligible call
increments the counter to 10 and inserts exactly one enemy through the
slot-reuse scan. -/
theorem spawn_cadence_witness :
    (100 : Int) ≤ 1000 - 0 ∧
    ∃ spawner',
      spawner' = (demoSpawner.setSpawn 1000).setCounter (9 + 1) ∧
      spawner'.getSpawn = some 1000 ∧
      spawner'.getCounter = some (9 + 1) ∧
      spawnUpdate 1000 90 160 (1/2) (1/3) false 10 [none, some demoSpawner] =
        (if ((9 : Int) + 1) % 10 = 0
         then addEntity ([none, some demoSpawner].set 1 (some spawner'))
           (enemyShipAssemblage 10 90 160 ((1/2) * 90) 0 (1/3) false)
         else [none, some demoSpawner].set 1 (some spawner')) ∧
      liveCount (spawnUpdate 1000 90 160 (1/2) (1/3) false 10
        [none, some demoSpawner]) =
        liveCount [none, some demoSpawner] +
          (if ((9 : Int) + 1) % 10 = 0 then 1 else 0) :=
  ⟨by decide,
   (spawn_cadence 1000 0 9 90 160 (1/2) (1/3) false 10
      [none, some demoSpawner] 1 demoSpawner rfl rfl rfl rfl).2 (by decide)⟩

end Bullets
